import Mathlib

/-!
Verification development for the rekordbox-bulk-edit repository.

The definitions below are a shallow embedding of the Python sources:
  - rekordbox_bulk_edit/utils.py        (format registry, audio probe, confirm gate)
  - rekordbox_bulk_edit/commands/convert.py  (the conversion orchestrator)
  - rekordbox_bulk_edit/query.py        (the collection query builder)

External effects (the filesystem, the ffmpeg encoder and probe, the database
session, user prompts) are modelled as explicit oracle inputs; machine state
(files on disk, staged records, commit and rollback counters, emitted log
events) is threaded explicitly.  Python exceptions become `Except String`.
-/

namespace RBE

/-! Log events.  The source interpolates values into f-strings handed to a
logger; we keep the interpolated data as structured payloads together with
the level each call site uses. -/

inductive LogLevel where
  | debug
  | verbose
  | info
  | warning
  | error
deriving Repr, DecidableEq

/-- Numeric value of each level, matching the Python logging module
(DEBUG=10, the project's VERBOSE=15, INFO=20, WARNING=30, ERROR=40). -/
def LogLevel.toNat : LogLevel → Nat
  | .debug => 10
  | .verbose => 15
  | .info => 20
  | .warning => 30
  | .error => 40

/-- Modelled from the spec: the repository's logger module
(rekordbox_bulk_edit/logger.py) is absent from the source tree; only its
callers and its test suite are present.  Per the spec's logging collaborator
(process-lifetime level configuration) and the logger tests, the console
handler the operator sees defaults to the INFO level, so only records at
INFO or above are operator-visible by default; debug and verbose records go
to the log file only. -/
def operatorVisible (lvl : LogLevel) : Bool :=
  LogLevel.info.toNat ≤ lvl.toNat

inductive LogPayload where
  | convertingCodec (bitDepth : Int) (codec : String)
  | conflictsOverwrite (n : Nat)
  | skipConflicts (n : Nat)
  | noFilesToConvert
  | noFilesNeedConversion
  | foundFiles (n : Nat)
  | progress (i total : Nat) (name : String)
  | sourceNotFound (path : String)
  | conversionFailed
  | outputNotCreated
  | dbUpdateFailed (msg : String)
  | done
  | noFilesConverted
  | convertedCount (n : Nat)
  | commitFailed (msg : String)
  | failedDelete (path : String)
  | deletedCount (n : Nat)
  | cancelled
  | text (s : String)
deriving Repr, DecidableEq

structure LogEvent where
  level : LogLevel
  payload : LogPayload
deriving Repr, DecidableEq

/-! String helpers mirroring the path manipulation the source performs with
os.path and pathlib. -/

/-- Scan for one character list occurring contiguously inside another. -/
def listIsInfix (needle : List Char) : List Char → Bool
  | [] => needle.isEmpty
  | c :: t => needle.isPrefixOf (c :: t) || listIsInfix needle t

/-- Membership of one string inside another, the Python `sub in s` test. -/
def strContains (s sub : String) : Bool :=
  listIsInfix sub.data s.data

/-- Lower-casing, the Python str.lower on ASCII data. -/
def strLower (s : String) : String :=
  ⟨s.data.map Char.toLower⟩

/-- Upper-casing, the Python str.upper on ASCII data. -/
def strUpper (s : String) : String :=
  ⟨s.data.map Char.toUpper⟩

/-- First character of a string as a one-character string (Python s[0] on a
nonempty string; empty input gives the empty string). -/
def strHead (s : String) : String :=
  ⟨s.data.take 1⟩

/-- Character-separator split, the list-level engine for the path helpers. -/
def splitChar (sep : Char) : List Char → List (List Char)
  | [] => [[]]
  | c :: t =>
    let r := splitChar sep t
    if c = sep then [] :: r
    else
      match r with
      | [] => [[c]]
      | h :: t2 => (c :: h) :: t2

/-- Join of string pieces with a separator. -/
def intercal (sep : String) : List String → String
  | [] => ""
  | [x] => x
  | x :: xs => x ++ sep ++ intercal sep xs

/-- Split of a string on a single-character separator. -/
def splitStr (sep : Char) (s : String) : List String :=
  (splitChar sep s.data).map (fun l => ⟨l⟩)

/-- Python os.path.dirname for slash-separated paths. -/
def dirname (p : String) : String :=
  let parts := splitStr (Char.ofNat 47) p
  if parts.length ≤ 1 then ""
  else
    let d := intercal "/" parts.dropLast
    if d = "" then "/" else d

/-- Python pathlib Path(name).stem: the file name with its last extension
removed (a leading dot alone does not start an extension). -/
def pathStem (s : String) : String :=
  let parts := splitStr (Char.ofNat 46) s
  match parts with
  | [] => s
  | [_] => s
  | ["", _] => s
  | _ => intercal "." parts.dropLast

/-- Python os.path.join for the two-argument form used by the source. -/
def joinPath (d f : String) : String :=
  if d = "" then f
  else if d.data.getLast? = some (Char.ofNat 47) then d ++ f
  else d ++ "/" ++ f

/-! Embedding of rekordbox_bulk_edit/utils.py. -/

/-- Source: utils.get_file_type_name.  Human-readable name for a file type
code; raises ValueError for unknown codes. -/
def get_file_type_name (file_type_code : Int) : Except String String :=
  let name : Option String :=
    if file_type_code = 0 then some "MP3"
    else if file_type_code = 1 then some "MP3"
    else if file_type_code = 4 then some "M4A"
    else if file_type_code = 5 then some "FLAC"
    else if file_type_code = 11 then some "WAV"
    else if file_type_code = 12 then some "AIFF"
    else none
  match name with
  | none => .error s!"Unknown file_type: {file_type_code}"
  | some n => .ok n

/-- Source: utils.get_file_type_for_format.  File type code for a format
name, case-insensitive; raises for empty input and unknown names.  The
lookup table holds MP3, M4A, FLAC, WAV and AIFF only. -/
def get_file_type_for_format (format_name : String) : Except String Int :=
  if format_name = "" then .error "Format name cannot be empty or None"
  else
    let u := strUpper format_name
    let file_type : Option Int :=
      if u = "MP3" then some 1
      else if u = "M4A" then some 4
      else if u = "FLAC" then some 5
      else if u = "WAV" then some 11
      else if u = "AIFF" then some 12
      else none
    match file_type with
    | none => .error s!"Unknown format: {format_name}"
    | some t => .ok t

/-- Source: utils.get_extension_for_format.  File extension for a format
name, case-insensitive; this table does include ALAC. -/
def get_extension_for_format (format_name : String) : Except String String :=
  if format_name = "" then .error "Format name cannot be empty or None"
  else
    let u := strUpper format_name
    let ext : Option String :=
      if u = "MP3" then some ".mp3"
      else if u = "AIFF" then some ".aiff"
      else if u = "FLAC" then some ".flac"
      else if u = "WAV" then some ".wav"
      else if u = "ALAC" then some ".m4a"
      else none
    match ext with
    | none => .error s!"Unknown format: {format_name}"
    | some e => .ok e

/-- Fields of the audio stream dictionary that ffmpeg.probe reports and
utils.get_audio_info reads.  A missing dictionary key is `none`. -/
structure AudioStreamData where
  bits_per_sample : Option Int
  bits_per_raw_sample : Option Int
  sample_fmt : Option String
  bit_rate : Option Int
  sample_rate : Option Int
  channels : Option Int
deriving Repr, DecidableEq

/-- Result dictionary of utils.get_audio_info. -/
structure AudioInfo where
  bit_depth : Int
  sample_rate : Int
  channels : Int
  bitrate : Int
deriving Repr, DecidableEq

/-- Bit-depth resolution chain of utils.get_audio_info, mirroring the
source's if/elif chain: bits_per_sample when present and nonzero, else
bits_per_raw_sample when present and nonzero, else digits 16/24/32 inside a
present sample_fmt; otherwise the sentinel -1 survives. -/
def probedBitDepth (s : AudioStreamData) : Int :=
  if s.bits_per_sample.isSome ∧ s.bits_per_sample.getD 0 ≠ 0 then
    s.bits_per_sample.getD 0
  else if s.bits_per_raw_sample.isSome ∧ s.bits_per_raw_sample.getD 0 ≠ 0 then
    s.bits_per_raw_sample.getD 0
  else if s.sample_fmt.isSome then
    let sample_fmt := s.sample_fmt.getD ""
    if strContains sample_fmt "16" then 16
    else if strContains sample_fmt "24" then 24
    else if strContains sample_fmt "32" then 32
    else -1
  else -1

/-- Bit-rate resolution of utils.get_audio_info: a truthy stream bit_rate
divided by 1000, else the product of sample rate, bit depth and channels
with the source's dictionary-get fallbacks -1 and 1. -/
def probedBitrate (s : AudioStreamData) (bit_depth : Int) : Int :=
  if s.bit_rate.isSome ∧ s.bit_rate.getD 0 ≠ 0 then
    Int.fdiv (s.bit_rate.getD 0) 1000
  else
    let sample_rate := s.sample_rate.getD (-1)
    let channels := s.channels.getD 1
    Int.fdiv (sample_rate * bit_depth * channels) 1000

/-- Source: utils.get_audio_info.  The probe's stream list is abstracted to
the first audio stream found, if any (`none` means no audio stream).  A
negative resolved bit depth or bit rate fails.  The returned sample_rate
and channels fields use the source's dictionary-get fallback values 44100
and 2. -/
def get_audio_info (ffmpegInPath : Bool) (stream? : Option AudioStreamData)
    (file_path : String) : Except String AudioInfo :=
  if ¬ ffmpegInPath then .error "FFmpeg is required"
  else
    match stream? with
    | none => .error s!"No audio stream found in {file_path}"
    | some audio_stream =>
      let bit_depth : Int := probedBitDepth audio_stream
      let bitrate : Int := probedBitrate audio_stream bit_depth
      if bit_depth < 0 then .error s!"No valid bit depth found for {file_path}"
      else if bitrate < 0 then .error s!"No valid bitrate found for {file_path}"
      else
        .ok { bit_depth := bit_depth
              sample_rate := audio_stream.sample_rate.getD 44100
              channels := audio_stream.channels.getD 2
              bitrate := bitrate }

/-! Embedding of utils.confirm, the three-way confirmation gate. -/

/-- Outcome of one confirm call: a returned boolean or a raised UserQuit. -/
inductive ConfirmOutcome where
  | ret (b : Bool)
  | quit (msg : String)
deriving Repr, DecidableEq

/-- Model of click.prompt with a click.Choice(…, case_sensitive=False) type
and a default: empty input yields the default choice, any other input is
matched case-insensitively against the choice list; `none` means click
rejects the input and re-prompts. -/
def clickPromptChoice (choices : List String) (defaultChoice : String)
    (input : String) : Option String :=
  if input = "" then some defaultChoice
  else if choices.contains (strLower input) then some (strLower input)
  else none

/-- Source: utils.confirm.  With abort or binary set the choices are y/n,
otherwise y/n/q; the default choice is y when `defaultYes` else n.  A yes
answer returns true; a no answer returns false unless abort is set, in
which case it raises UserQuit; a q answer raises UserQuit.  `none` means
the input was rejected by the prompt (re-prompt). -/
def confirm (defaultYes binary abort : Bool) (input : String) :
    Option ConfirmOutcome :=
  let choices := if abort || binary then ["y", "n"] else ["y", "n", "q"]
  let defaultChoice := if defaultYes then "y" else "n"
  match clickPromptChoice choices defaultChoice input with
  | none => none
  | some response =>
    if strLower response = "y" then some (.ret true)
    else if strLower response = "n" then
      if abort then some (.quit "User declined to continue")
      else some (.ret false)
    else if strHead (strLower response) = "q" then some (.quit "User quit")
    else none

/-! Embedding of rekordbox_bulk_edit/commands/convert.py. -/

/-- Catalog record (pyrekordbox DjmdContent), restricted to the columns the
convert command reads or writes.  A BitDepth the catalog does not expose is
`none`; the source reads it with getattr(content, "BitDepth", None). -/
structure DjmdContent where
  ID : Nat
  FileNameL : String
  FolderPath : String
  FileType : Int
  SampleRate : Int
  BitDepth : Option Int
  BitRate : Int
  Title : String
  ArtistName : String
  AlbumName : String
deriving Repr, DecidableEq

/-- Entry of the converted_files list accumulated by convert_command. -/
structure ConvertedFile where
  source_path : String
  output_path : String
  content_id : Nat
deriving Repr, DecidableEq

/-- Truthiness of the catalog's BitDepth field as Python sees it:
None and 0 are falsy. -/
def bitDepthTruthy : Option Int → Bool
  | none => false
  | some v => v ≠ 0

/-- Source: convert.get_output_path.  Output path in the source's directory,
source file stem plus the target extension. -/
def get_output_path (content : DjmdContent) (output_format : String) :
    Except String (String × String × String) := do
  let src_folder_path := content.FolderPath
  let src_file_name := content.FileNameL
  let src_dirname := dirname src_folder_path
  let extension ← get_extension_for_format (strUpper output_format)
  let output_filename := pathStem src_file_name ++ extension
  return (joinPath src_dirname output_filename, output_filename, src_dirname)

/-- Codec tables of convert.convert_to_lossless, in source order; `some none`
is a fixed-codec container (the Python dict maps it to None), `none` means
the format key is absent. -/
def codec_maps (output_format : String) : Option (Option (List (Int × String))) :=
  if output_format = "aiff" then
    some (some [(16, "pcm_s16be"), (24, "pcm_s24be"), (32, "pcm_s32be")])
  else if output_format = "wav" then
    some (some [(16, "pcm_s16le"), (24, "pcm_s24le"), (32, "pcm_s32le")])
  else if output_format = "flac" then some none
  else if output_format = "alac" then some none
  else none

/-- Association-list lookup mirroring dict.get. -/
def assocLookup (m : List (Int × String)) (k : Int) : Option String :=
  match m.find? (fun p => p.1 = k) with
  | some p => some p.2
  | none => none

/-- Observable outcome of one encoder invocation: the boolean the Python
function returns, the codec it passed to ffmpeg, and the log events it
emitted. -/
structure EncodeOutcome where
  success : Bool
  acodec : String
  events : List LogEvent
deriving Repr, DecidableEq

/-- Source: convert.convert_to_lossless.  Probes the input for its bit
depth, picks the codec (exact bit-depth match for raw-PCM containers, first
table entry as fallback; the container name itself for fixed-codec
containers), logs the choice at debug level, and runs ffmpeg.  The ffmpeg
run itself is the oracle `ffmpegRunOk`; an ffmpeg error is caught and
turned into a False return with an error-level log.  Probe failures and a
missing ffmpeg or unknown format raise out of the function. -/
def convert_to_lossless (ffmpegInPath : Bool) (streamIn? : Option AudioStreamData)
    (ffmpegRunOk : Bool) (input_path _output_path : String)
    (output_format : String) : Except String EncodeOutcome := do
  if ¬ ffmpegInPath then
    throw "FFmpeg not found in PATH."
  let audio_info ← get_audio_info ffmpegInPath streamIn? input_path
  let bit_depth := audio_info.bit_depth
  match codec_maps output_format with
  | none => throw s!"Unsupported lossless format: {output_format}"
  | some codec_map =>
    let codec :=
      match codec_map with
      | none => output_format
      | some m => (assocLookup m bit_depth).getD ((m.map Prod.snd).headD "")
    let debugEv : LogEvent := ⟨.debug, .convertingCodec bit_depth codec⟩
    if ffmpegRunOk then
      return { success := true, acodec := codec, events := [debugEv] }
    else
      return { success := false, acodec := codec
               events := [debugEv, ⟨.error, .conversionFailed⟩] }

/-- Source: convert.convert_to_mp3.  Fixed 320 kbps CBR encode with
libmp3lame; no probe of the input. -/
def convert_to_mp3 (ffmpegInPath : Bool) (ffmpegRunOk : Bool)
    (_input_path _mp3_path : String) : Except String EncodeOutcome := do
  if ¬ ffmpegInPath then
    throw "FFmpeg not found in PATH."
  if ffmpegRunOk then
    return { success := true, acodec := "libmp3lame", events := [] }
  else
    return { success := false, acodec := "libmp3lame"
             events := [⟨.error, .conversionFailed⟩] }

/-- Replacement of the first record carrying the given ID, mirroring the
query get_content().filter_by(ID=…).first() followed by in-place field
assignment. -/
def setFirst (db : List DjmdContent) (cid : Nat)
    (f : DjmdContent → DjmdContent) : List DjmdContent :=
  match db with
  | [] => []
  | c :: rest => if c.ID = cid then f c :: rest else c :: setFirst rest cid f

/-- Source: convert.update_database_record.  Looks up the record, probes the
converted file (oracle `probeOut`), verifies bit depth against the catalog
for AIFF/FLAC/WAV outputs when the catalog exposes a truthy BitDepth, then
stages file name, folder path, file type and bit rate (zero for FLAC).  The
updated record list is returned in place of the mutated session. -/
def update_database_record (ffmpegInPath : Bool) (db : List DjmdContent)
    (probeOut : Option AudioStreamData) (content_id : Nat)
    (new_filename new_folder output_format : String) :
    Except String (List DjmdContent) := do
  let content? := db.find? (fun c => c.ID = content_id)
  match content? with
  | none => throw s!"Content record with ID {content_id} not found"
  | some content =>
    let converted_full_path := joinPath new_folder new_filename
    let converted_audio_info ←
      get_audio_info ffmpegInPath probeOut converted_full_path
    let converted_bitrate := converted_audio_info.bitrate
    let file_type ← get_file_type_for_format output_format
    if strUpper output_format = "AIFF" ∨ strUpper output_format = "FLAC"
        ∨ strUpper output_format = "WAV" then
      let converted_bit_depth := converted_audio_info.bit_depth
      let database_bit_depth := content.BitDepth
      if bitDepthTruthy database_bit_depth then
        let dbv := database_bit_depth.getD 0
        if converted_bit_depth ≠ dbv then
          throw s!"Bit depth mismatch: database={dbv}, file={converted_bit_depth}"
    let new_bit_rate : Int :=
      if strUpper output_format = "FLAC" then 0 else converted_bitrate
    return setFirst db content_id (fun c =>
      { c with FileNameL := new_filename
               FolderPath := converted_full_path
               FileType := file_type
               BitRate := new_bit_rate })

/-- Oracle for everything external to the orchestrator in one invocation. -/
structure Env where
  ffmpegInPath : Bool
  rekordboxPid : Option Nat
  sessionOk : Bool
  fs0 : List String
  db0 : List DjmdContent
  filtered_content : List DjmdContent
  probe : String → Option AudioStreamData
  encodeOk : String → Bool
  encodeWrites : String → Bool
  commitOk : Bool
  removeFails : String → Bool
  continueAnyway : ConfirmOutcome
  batchAnswer : ConfirmOutcome
  interactiveAnswer : Nat → ConfirmOutcome

/-- Machine-output mode of the --print option. -/
inductive PrintChoice where
  | info
  | ids
  | silent
deriving Repr, DecidableEq

/-- Command-line options of convert_command relevant to the orchestrator. -/
structure Opts where
  dry_run : Bool
  yes : Bool
  delete : Option Bool
  overwrite : Bool
  interactive : Bool
  format_out : String
  print_opt : PrintChoice
deriving Repr

/-- Mutable state threaded through one invocation. -/
structure RunState where
  fs : List String
  db : List DjmdContent
  commitCalls : Nat
  rollbackCalls : Nat
  converted_files : List ConvertedFile
  events : List LogEvent
  removalAttempts : List String
  deleted_count : Nat
deriving Repr, DecidableEq

/-- Termination of the invocation: finished n is a process exit with code n
(sys.exit or normal return), raised is an uncaught exception (the
interpreter exits nonzero). -/
inductive ExitKind where
  | finished (code : Nat)
  | raised (msg : String)
deriving Repr, DecidableEq

/-- Nonzero process termination. -/
def ExitKind.isNonzero : ExitKind → Bool
  | .finished n => n ≠ 0
  | .raised _ => true

structure RunResult where
  state : RunState
  exit : ExitKind
deriving Repr, DecidableEq

/-- Source: convert.cleanup_converted_files.  Best-effort removal of each
accumulated output file; a failing removal is swallowed. -/
def cleanup_converted_files (env : Env) (files : List ConvertedFile)
    (fs : List String) : List String :=
  files.foldl (fun acc f =>
    if env.removeFails f.output_path then acc
    else acc.filter (fun p => p ≠ f.output_path)) fs

/-- Source: the rollback_and_cleanup closure in convert_command: roll the
session back when one is open, then delete the accumulated output files. -/
def rollback_and_cleanup (env : Env) (st : RunState) : RunState :=
  let st1 :=
    if env.sessionOk then { st with rollbackCalls := st.rollbackCalls + 1 }
    else st
  if st1.converted_files.isEmpty then st1
  else { st1 with fs := cleanup_converted_files env st1.converted_files st1.fs }

/-- Source: convert_command lines computing files_to_convert: drop records
already in the target format and records whose file type equals the MP3 or
M4A codes. -/
def files_to_convert_filter (filtered : List DjmdContent)
    (target_file_type mp3_type m4a_type : Int) : List DjmdContent :=
  filtered.filter (fun content =>
    content.FileType ≠ target_file_type ∧ content.FileType ≠ mp3_type
      ∧ content.FileType ≠ m4a_type)

/-- Result of the batch-level conflict check: the files that proceed, the
log events it emits, and whether the command returns early (exit 0). -/
structure ConflictResolution where
  files_to_process : List DjmdContent
  events : List LogEvent
  earlyReturn : Bool
deriving Repr, DecidableEq

/-- Source: the CONFLICT CHECK section of convert_command.  Partition on
whether the output path already exists; with --overwrite everything
proceeds with an info message; with --yes conflicts are skipped silently
(returning early when nothing is left); otherwise a warning naming the
conflict count is logged and the non-conflicting rest proceeds. -/
def conflict_split (fs : List String) (format_out : String) :
    List DjmdContent → Except String (List DjmdContent × List DjmdContent)
  | [] => .ok ([], [])
  | content :: rest => do
    let (output_path, _, _) ← get_output_path content format_out
    let (cs, vs) ← conflict_split fs format_out rest
    if fs.contains output_path then
      return (content :: cs, vs)
    else
      return (cs, content :: vs)

/-- Source: the branching of the CONFLICT CHECK section after the
partition. -/
def resolve_conflicts (fs : List String) (format_out : String)
    (overwrite yes : Bool) (files : List DjmdContent) :
    Except String ConflictResolution := do
  let (conflicts, convertible) ← conflict_split fs format_out files
  if ¬ conflicts.isEmpty then
    if overwrite then
      return { files_to_process := files
               events := [⟨.info, .conflictsOverwrite conflicts.length⟩]
               earlyReturn := false }
    else if yes then
      if convertible.isEmpty then
        return { files_to_process := [], events := [], earlyReturn := true }
      else
        return { files_to_process := convertible, events := []
                 earlyReturn := false }
    else
      if convertible.isEmpty then
        return { files_to_process := []
                 events := [⟨.warning, .skipConflicts conflicts.length⟩,
                            ⟨.info, .noFilesToConvert⟩]
                 earlyReturn := true }
      else
        return { files_to_process := convertible
                 events := [⟨.warning, .skipConflicts conflicts.length⟩]
                 earlyReturn := false }
  else
    return { files_to_process := (if overwrite then files else convertible)
             events := [], earlyReturn := false }

/-- Source: the delete-default computation of convert_command: without an
explicit flag, delete unless the output format is MP3. -/
def should_delete_for (delete : Option Bool) (format_out : String) : Bool :=
  match delete with
  | none => strUpper format_out ≠ "MP3"
  | some b => b

/-- Outcome of one iteration of the CONVERT loop: continue with the next
candidate or stop the whole invocation with a result. -/
inductive StepResult where
  | next (st : RunState)
  | stop (r : RunResult)

/-- Helper building the abort taken on every fatal loop error: an error
event, rollback with cleanup, and sys.exit(1). -/
def abortExit1 (env : Env) (st : RunState) (ev : LogEvent) : StepResult :=
  .stop { state := rollback_and_cleanup env { st with events := st.events ++ [ev] }
          exit := .finished 1 }

/-- Helper for exceptions escaping to the top-level handler: rollback with
cleanup, then the exception is re-raised (nonzero interpreter exit). -/
def abortRaised (env : Env) (st : RunState) (msg : String) : RunResult :=
  { state := rollback_and_cleanup env st, exit := .raised msg }

/-- Source: the tail of the CONVERT loop body after a returned encode: the
output-existence check and the database staging, each with its abort
path. -/
def afterEncode (env : Env) (opts : Opts) (content : DjmdContent)
    (output_path output_filename src_dirname : String)
    (outcome : EncodeOutcome) (st : RunState) : StepResult :=
  if ¬ outcome.success then
    abortExit1 env st ⟨.error, .conversionFailed⟩
  else if ¬ st.fs.contains output_path then
    abortExit1 env st ⟨.error, .outputNotCreated⟩
  else
    match update_database_record env.ffmpegInPath st.db
        (env.probe output_path) content.ID output_filename src_dirname
        (strUpper opts.format_out) with
    | .ok db' =>
      .next { st with
        db := db'
        converted_files := st.converted_files ++
          [{ source_path := content.FolderPath
             output_path := output_path
             content_id := content.ID }]
        events := st.events ++ [⟨.verbose, .done⟩] }
    | .error e =>
      abortExit1 env st ⟨.error, .dbUpdateFailed e⟩

/-- Source: the middle of the CONVERT loop body: the source-existence
re-check, the race-safety output skip, and the encode with its filesystem
effect, handing over to afterEncode for verification and staging. -/
def processBody (env : Env) (opts : Opts) (content : DjmdContent)
    (output_path output_filename src_dirname : String) (st : RunState) :
    StepResult :=
    if ¬ st.fs.contains content.FolderPath then
      abortExit1 env st ⟨.error, .sourceNotFound content.FolderPath⟩
    else if st.fs.contains output_path ∧ ¬ opts.overwrite then
      .next st
    else
      match (if strUpper opts.format_out = "MP3" then
               convert_to_mp3 env.ffmpegInPath (env.encodeOk output_path)
                 content.FolderPath output_path
             else
               convert_to_lossless env.ffmpegInPath
                 (env.probe content.FolderPath) (env.encodeOk output_path)
                 content.FolderPath output_path
                 (strLower opts.format_out)) with
      | .error e => .stop (abortRaised env st e)
      | .ok outcome =>
        afterEncode env opts content output_path output_filename src_dirname
          outcome
          { st with
            events := st.events ++ outcome.events
            fs := if env.encodeWrites output_path then output_path :: st.fs
                  else st.fs }

/-- Source: the head of the CONVERT loop body: name and path computation,
the progress line and the optional per-file confirmation, before handing
over to the existence checks and the encode in processBody. -/
def processOne (env : Env) (opts : Opts) (i total : Nat)
    (content : DjmdContent) (st : RunState) : StepResult :=
  let src_file_name := content.FileNameL
  match get_file_type_name content.FileType with
  | .error e => .stop (abortRaised env st e)
  | .ok _src_format =>
    match get_output_path content opts.format_out with
    | .error e => .stop (abortRaised env st e)
    | .ok (output_path, output_filename, src_dirname) =>
      let st := { st with events :=
        st.events ++ [⟨.info, .progress i total src_file_name⟩] }
      if opts.interactive then
        match env.interactiveAnswer content.ID with
        | .ret false => .next st
        | .quit _ =>
          .stop { state := rollback_and_cleanup env st, exit := .finished 0 }
        | .ret true =>
          processBody env opts content output_path output_filename src_dirname st
      else
        processBody env opts content output_path output_filename src_dirname st

/-- The CONVERT loop itself: process candidates in order, stopping at the
first fatal step. -/
def runLoop (env : Env) (opts : Opts) (total : Nat) :
    Nat → List DjmdContent → RunState → (RunState ⊕ RunResult)
  | _, [], st => .inl st
  | i, content :: rest, st =>
    match processOne env opts i total content st with
    | .next st' => runLoop env opts total (i + 1) rest st'
    | .stop r => .inr r

/-- Source: the DELETE ORIGINALS section: attempt to remove each converted
record's source file; a failure logs a warning and the loop continues. -/
def delete_originals (env : Env) (files : List ConvertedFile)
    (st : RunState) : RunState :=
  files.foldl (fun acc f =>
    let acc := { acc with removalAttempts := acc.removalAttempts ++ [f.source_path] }
    if env.removeFails f.source_path then
      { acc with events := acc.events ++ [⟨.warning, .failedDelete f.source_path⟩] }
    else
      { acc with fs := acc.fs.filter (fun p => p ≠ f.source_path)
                 deleted_count := acc.deleted_count + 1 }) st

/-- Initial machine state of one invocation. -/
def initState (env : Env) : RunState :=
  { fs := env.fs0, db := env.db0, commitCalls := 0, rollbackCalls := 0
    converted_files := [], events := [], removalAttempts := []
    deleted_count := 0 }

/-- Source: convert.convert_command, the whole orchestrator pipeline:
option validation, preconditions, query filtering, conflict check, preview,
confirmation, the convert loop, commit or rollback, and source deletion. -/
def convert_command (env : Env) (opts : Opts) : RunResult :=
  let scripting_mode := opts.print_opt = .ids ∨ opts.print_opt = .silent
  let st0 := initState env
  if scripting_mode ∧ ¬ (opts.dry_run ∨ opts.yes) then
    { state := st0, exit := .finished 2 }
  else
    let should_delete := should_delete_for opts.delete opts.format_out
    let afterPid : RunState ⊕ RunResult :=
      match env.rekordboxPid with
      | some _pid =>
        if scripting_mode then
          .inr { state := { st0 with events := st0.events ++
                   [⟨.error, .text "Rekordbox is running"⟩] }
                 exit := .finished 1 }
        else
          let st1 := { st0 with events := st0.events ++
            [⟨.warning, .text "Rekordbox is running"⟩,
             ⟨.warning, .text "Modifying the database while Rekordbox is open can cause conflicts."⟩] }
          match env.continueAnyway with
          | .ret true => .inl st1
          | .ret false => .inr { state := st1, exit := .finished 0 }
          | .quit _ => .inr { state := st1, exit := .finished 0 }
      | none => .inl st0
    match afterPid with
    | .inr r => r
    | .inl st =>
      if ¬ env.ffmpegInPath then
        { state := { st with events := st.events ++
            [⟨.error, .text "FFmpeg is required but not found in PATH"⟩] }
          exit := .finished 1 }
      else if ¬ env.sessionOk then
        abortRaised env st "No database session available"
      else
        let filtered_content := env.filtered_content
        match get_file_type_for_format opts.format_out with
        | .error e => abortRaised env st e
        | .ok target_file_type =>
          match get_file_type_for_format "MP3" with
          | .error e => abortRaised env st e
          | .ok mp3_type =>
            match get_file_type_for_format "M4A" with
            | .error e => abortRaised env st e
            | .ok m4a_type =>
              let files_to_convert := files_to_convert_filter filtered_content
                target_file_type mp3_type m4a_type
              if files_to_convert.isEmpty then
                { state := { st with events := st.events ++
                    [⟨.info, .noFilesNeedConversion⟩] }
                  exit := .finished 0 }
              else
                match resolve_conflicts st.fs opts.format_out opts.overwrite
                    opts.yes files_to_convert with
                | .error e => abortRaised env st e
                | .ok res =>
                  let st := { st with events := st.events ++ res.events }
                  if res.earlyReturn then
                    { state := st, exit := .finished 0 }
                  else
                    let files_to_process := res.files_to_process
                    let st := { st with events := st.events ++
                      [⟨.info, .foundFiles files_to_process.length⟩] }
                    if opts.dry_run then
                      { state := st, exit := .finished 0 }
                    else
                      let confirmed : RunState ⊕ RunResult :=
                        if ¬ opts.yes ∧ ¬ opts.interactive then
                          match env.batchAnswer with
                          | .ret true => .inl st
                          | .ret false =>
                            .inr { state := { st with events := st.events ++
                                     [⟨.info, .cancelled⟩] }
                                   exit := .finished 0 }
                          | .quit _ => .inr { state := st, exit := .finished 0 }
                        else .inl st
                      match confirmed with
                      | .inr r => r
                      | .inl st =>
                        match runLoop env opts files_to_process.length 1
                            files_to_process st with
                        | .inr r => r
                        | .inl st =>
                          if st.converted_files.isEmpty then
                            { state := { st with events := st.events ++
                                [⟨.info, .noFilesConverted⟩] }
                              exit := .finished 0 }
                          else
                            let st := { st with commitCalls := st.commitCalls + 1 }
                            if ¬ env.commitOk then
                              { state := rollback_and_cleanup env
                                  { st with events := st.events ++
                                    [⟨.error, .commitFailed "commit"⟩] }
                                exit := .finished 1 }
                            else
                              let st := { st with events := st.events ++
                                [⟨.info, .convertedCount st.converted_files.length⟩] }
                              let st :=
                                if should_delete then
                                  let st := delete_originals env st.converted_files st
                                  { st with events := st.events ++
                                    [⟨.info, .deletedCount st.deleted_count⟩] }
                                else st
                              { state := st, exit := .finished 0 }

/-! Embedding of rekordbox_bulk_edit/query.py. -/

/-- Filter conditions a CollectionQuery accumulates; each constructor is one
of the SQLAlchemy conditions the builder methods create. -/
inductive QueryCondition where
  | idIn (ids : List String)
  | artistIsNull
  | artistEq (s : String)
  | artistLike (s : String)
  | titleIsNull
  | titleEq (s : String)
  | titleLike (s : String)
  | albumIdIsNull
  | albumEq (s : String)
  | albumLike (s : String)
  | playlistContentIsNull
  | playlistEq (s : String)
  | playlistLike (s : String)
  | fileTypeEq (code : Int)
deriving Repr, DecidableEq

/-- Value held by the _match_all attribute.  Python lets _copy assign the
bound method self.match_any to it instead of a boolean; a bound method is
always truthy. -/
inductive PyMatchAll where
  | pybool (b : Bool)
  | boundMethod
deriving Repr, DecidableEq

/-- Python truthiness of the _match_all attribute. -/
def PyMatchAll.truthy : PyMatchAll → Bool
  | .pybool b => b
  | .boundMethod => true

/-- State of a CollectionQuery: the accumulated conditions, the _match_all
attribute and the limit.  The joins accumulated on the underlying select
statement do not affect the condition-combination logic and are omitted. -/
structure CollectionQuery where
  conditions : List QueryCondition
  matchAll : PyMatchAll
  limitCount : Option Nat
deriving Repr, DecidableEq

/-- Source: CollectionQuery.__init__. -/
def collectionQueryInit (match_all : Bool) : CollectionQuery :=
  { conditions := [], matchAll := .pybool match_all, limitCount := none }

/-- Source: CollectionQuery._copy.  The source line
new_inst._match_all = self.match_any stores the bound method match_any
itself (not the _match_all flag and not a call), so every copy carries a
truthy non-boolean in _match_all. -/
def CollectionQuery._copy (q : CollectionQuery) : CollectionQuery :=
  { conditions := q.conditions, matchAll := .boundMethod
    limitCount := q.limitCount }

/-- Source: CollectionQuery.match_any: copy, then set _match_all False. -/
def CollectionQuery.match_any (q : CollectionQuery) : CollectionQuery :=
  { q._copy with matchAll := .pybool false }

/-- Source: CollectionQuery.match_all: copy, then set _match_all True. -/
def CollectionQuery.match_all (q : CollectionQuery) : CollectionQuery :=
  { q._copy with matchAll := .pybool true }

/-- Source: CollectionQuery.by_track_ids. -/
def CollectionQuery.by_track_ids (q : CollectionQuery) (track_ids : List String) :
    CollectionQuery :=
  let new_inst := q._copy
  { new_inst with conditions := new_inst.conditions ++ [.idIn track_ids] }

/-- Source: CollectionQuery.by_artist; a None argument returns the query
unchanged, an empty string matches null artists. -/
def CollectionQuery.by_artist (q : CollectionQuery) (artist_name : Option String)
    (exact : Bool) : CollectionQuery :=
  match artist_name with
  | none => q
  | some name =>
    let new_inst := q._copy
    let condition : QueryCondition :=
      if name = "" then .artistIsNull
      else if exact then .artistEq name
      else .artistLike name
    { new_inst with conditions := new_inst.conditions ++ [condition] }

/-- Source: CollectionQuery.by_title. -/
def CollectionQuery.by_title (q : CollectionQuery) (title : Option String)
    (exact : Bool) : CollectionQuery :=
  match title with
  | none => q
  | some t =>
    let new_inst := q._copy
    let condition : QueryCondition :=
      if t = "" then .titleIsNull
      else if exact then .titleEq t
      else .titleLike t
    { new_inst with conditions := new_inst.conditions ++ [condition] }

/-- Source: CollectionQuery.by_album; the empty string matches a null
AlbumID. -/
def CollectionQuery.by_album (q : CollectionQuery) (album_name : Option String)
    (exact : Bool) : CollectionQuery :=
  match album_name with
  | none => q
  | some name =>
    let new_inst := q._copy
    let condition : QueryCondition :=
      if name = "" then .albumIdIsNull
      else if exact then .albumEq name
      else .albumLike name
    { new_inst with conditions := new_inst.conditions ++ [condition] }

/-- Source: CollectionQuery.by_playlist. -/
def CollectionQuery.by_playlist (q : CollectionQuery) (playlist_name : Option String)
    (exact : Bool) : CollectionQuery :=
  match playlist_name with
  | none => q
  | some name =>
    let new_inst := q._copy
    let condition : QueryCondition :=
      if name = "" then .playlistContentIsNull
      else if exact then .playlistEq name
      else .playlistLike name
    { new_inst with conditions := new_inst.conditions ++ [condition] }

/-- Source: CollectionQuery.by_format.  An empty name returns the query
unchanged; an unknown name logs a warning and returns the copy without a
new condition. -/
def CollectionQuery.by_format (q : CollectionQuery) (format_name : String) :
    CollectionQuery :=
  if format_name = "" then q
  else
    let new_inst := q._copy
    match get_file_type_for_format format_name with
    | .ok file_type_code =>
      { new_inst with conditions :=
          new_inst.conditions ++ [.fileTypeEq file_type_code] }
    | .error _ => new_inst

/-- Source: CollectionQuery.limit. -/
def CollectionQuery.limit (q : CollectionQuery) (count : Nat) : CollectionQuery :=
  { q._copy with limitCount := some count }

/-- How the final statement combines the accumulated conditions. -/
inductive Combinator where
  | andOp
  | orOp
deriving Repr, DecidableEq

/-- Final executed statement: the combined where-clause, if any, and the
limit. -/
structure Statement where
  whereClause : Option (Combinator × List QueryCondition)
  limit : Option Nat
deriving Repr, DecidableEq

/-- Source: CollectionQuery._get_full_statement.  With conditions present,
a truthy _match_all selects and_, otherwise or_. -/
def CollectionQuery._get_full_statement (q : CollectionQuery) : Statement :=
  if q.conditions.isEmpty then { whereClause := none, limit := q.limitCount }
  else
    { whereClause := some
        ((if q.matchAll.truthy then Combinator.andOp else Combinator.orOp),
          q.conditions)
      limit := q.limitCount }

/-- Source: query.get_filtered_content, reduced to the statement it
executes.  Positional track-ID arguments short-circuit every other filter;
otherwise each provided option list is folded through the corresponding
builder, and match_all() is applied only when requested.  An absent option
(Python None) and an empty list behave identically and are both the empty
list here. -/
def get_filtered_content (track_id_args track_ids formats playlists
    exact_playlists artists exact_artists albums exact_albums titles
    exact_titles : List String) (match_all : Bool) : Statement :=
  let query := collectionQueryInit false
  if ¬ track_id_args.isEmpty then
    (query.by_track_ids track_id_args)._get_full_statement
  else
    let query := track_ids.foldl (fun q tid => q.by_track_ids [tid]) query
    let query := formats.foldl (fun q f => q.by_format f) query
    let query := playlists.foldl (fun q p => q.by_playlist (some p) false) query
    let query := exact_playlists.foldl (fun q p => q.by_playlist (some p) true) query
    let query := artists.foldl (fun q a => q.by_artist (some a) false) query
    let query := exact_artists.foldl (fun q a => q.by_artist (some a) true) query
    let query := albums.foldl (fun q a => q.by_album (some a) false) query
    let query := exact_albums.foldl (fun q a => q.by_album (some a) true) query
    let query := titles.foldl (fun q t => q.by_title (some t) false) query
    let query := exact_titles.foldl (fun q t => q.by_title (some t) true) query
    let query := if match_all then query.match_all else query
    query._get_full_statement

/-! Theorems settling the claims. -/

/-- C9: the confirmation gate accepts case-insensitive y/n/q, treats empty
input as the stated default, returns true on yes and false on no, raises
UserQuit on quit; in abort-on-no mode a no answer raises UserQuit instead
of returning false; in binary mode the quit option is suppressed (the
prompt rejects q and re-prompts). -/
theorem C9_confirm_gate :
    ∀ d : Bool,
      (confirm d false false "y" = some (.ret true)
        ∧ confirm d false false "Y" = some (.ret true)
        ∧ confirm d false false "n" = some (.ret false)
        ∧ confirm d false false "N" = some (.ret false)
        ∧ confirm d false false "q" = some (.quit "User quit")
        ∧ confirm d false false "Q" = some (.quit "User quit"))
      ∧ (confirm true false false "" = some (.ret true)
        ∧ confirm false false false "" = some (.ret false))
      ∧ (confirm d false true "y" = some (.ret true)
        ∧ confirm d false true "n" = some (.quit "User declined to continue"))
      ∧ (confirm d true false "y" = some (.ret true)
        ∧ confirm d true false "n" = some (.ret false)
        ∧ confirm d true false "q" = none
        ∧ confirm d true false "Q" = none) := by
  intro d
  cases d <;> decide

/-- Probe stream exercising the C6 counterexample: a present bit depth and
bit rate but no sample_rate or channels fields. -/
def c6stream : AudioStreamData :=
  { bits_per_sample := some 16, bits_per_raw_sample := none
    sample_fmt := none, bit_rate := some 320000
    sample_rate := none, channels := none }

/-- C6 counterexample: the probe does substitute default values.  On a
stream carrying no sample_rate and no channels field the call succeeds and
returns the fallback values 44100 and 2 rather than failing, so the claim
that the audio-info probe never substitutes default values is false. -/
theorem C6_counterexample :
    c6stream.sample_rate = none ∧ c6stream.channels = none
      ∧ get_audio_info true (some c6stream) "out.aiff" =
          .ok { bit_depth := 16, sample_rate := 44100, channels := 2
                bitrate := 320 } :=
  ⟨rfl, rfl, rfl⟩

/-- C6 amended: the probe fails (not defaults) when no audio stream is
present, resolves bit depth by the order bits-per-sample, then
bits-per-raw-sample, then digits 16/24/32 in the sample-format tag, fails
with an unresolved-bit-depth error when none applies, and on success the
returned bit depth is the one produced by the first matching source; the
returned sample-rate and channel-count fields, however, fall back to the
defaults 44100 and 2 when the probe data omits them. -/
theorem C6_probe_bit_depth_order (s : AudioStreamData) (path : String) :
    (get_audio_info true none path = .error s!"No audio stream found in {path}")
    ∧ (∀ info, get_audio_info true (some s) path = .ok info →
        info.bit_depth = probedBitDepth s)
    ∧ (∀ v, s.bits_per_sample = some v → v ≠ 0 → probedBitDepth s = v)
    ∧ ((s.bits_per_sample = none ∨ s.bits_per_sample = some 0) →
        ∀ w, s.bits_per_raw_sample = some w → w ≠ 0 → probedBitDepth s = w)
    ∧ ((s.bits_per_sample = none ∨ s.bits_per_sample = some 0) →
        (s.bits_per_raw_sample = none ∨ s.bits_per_raw_sample = some 0) →
        ∀ fmt, s.sample_fmt = some fmt →
          probedBitDepth s =
            (if strContains fmt "16" then 16
             else if strContains fmt "24" then 24
             else if strContains fmt "32" then 32
             else -1))
    ∧ (probedBitDepth s < 0 →
        get_audio_info true (some s) path =
          .error s!"No valid bit depth found for {path}") := by
  refine ⟨rfl, ?_, ?_, ?_, ?_, ?_⟩
  · intro info h
    simp only [get_audio_info, not_true, if_false] at h
    split at h
    · exact absurd h (by simp)
    · split at h
      · exact absurd h (by simp)
      · simp only [Except.ok.injEq] at h
        rw [← h]
  · intro v hv hne
    simp [probedBitDepth, hv, hne]
  · rintro (h0 | h0) w hw hne <;> simp [probedBitDepth, h0, hw, hne]
  · rintro (h0 | h0) (h1 | h1) fmt hf <;> simp [probedBitDepth, h0, h1, hf]
  · intro hlt
    simp only [get_audio_info, not_true, if_false]
    split
    · rfl
    · omega

/-- C6 witness: the amended theorem applied to a concrete stream whose
bits-per-sample field is zero and whose sample-format tag carries 24, so
resolution falls through to the third source. -/
theorem C6_probe_bit_depth_order_witness :
    probedBitDepth
      { bits_per_sample := some 0, bits_per_raw_sample := none
        sample_fmt := some "s24", bit_rate := none
        sample_rate := some 48000, channels := some 2 } = 24 := by
  have h := (C6_probe_bit_depth_order
    { bits_per_sample := some 0, bits_per_raw_sample := none
      sample_fmt := some "s24", bit_rate := none
      sample_rate := some 48000, channels := some 2 } "f").2.2.2.2.1
  have h24 := h (Or.inr rfl) (Or.inl rfl) "s24" rfl
  rw [h24]
  decide

/-- Probe stream shared by the concrete run scenarios: a plain 16-bit
44100 Hz stereo stream with an explicit bit rate. -/
def stream16 : AudioStreamData :=
  { bits_per_sample := some 16, bits_per_raw_sample := none
    sample_fmt := none, bit_rate := some 850000
    sample_rate := some 44100, channels := some 2 }

/-- Catalog record with the MP3 file type code 0, the variant the lossy
exclusion misses. -/
def c3mp3rec : DjmdContent :=
  { ID := 7, FileNameL := "old.mp3", FolderPath := "/m/old.mp3"
    FileType := 0, SampleRate := 44100, BitDepth := some 16, BitRate := 320
    Title := "t", ArtistName := "a", AlbumName := "b" }

/-- Benign oracle for the C3 scenario: every precondition passes, encoding
succeeds and writes its output, the commit succeeds. -/
def c3env : Env :=
  { ffmpegInPath := true, rekordboxPid := none, sessionOk := true
    fs0 := ["/m/old.mp3"], db0 := [c3mp3rec], filtered_content := [c3mp3rec]
    probe := fun _ => some stream16
    encodeOk := fun _ => true, encodeWrites := fun _ => true
    commitOk := true, removeFails := fun _ => false
    continueAnyway := .ret true, batchAnswer := .ret true
    interactiveAnswer := fun _ => .ret true }

/-- Options of an unattended aiff conversion. -/
def yesAiffOpts : Opts :=
  { dry_run := false, yes := true, delete := none, overwrite := false
    interactive := false, format_out := "aiff", print_opt := .info }

/-- C3: the lossy-format exclusion drops file type codes 1 (MP3), 4 (M4A)
and the target code, but a record with the MP3 catalog code 0 passes the
filter and a full invocation converts it, contradicting the claim (and the
command's own docstring) that recognized lossy formats are never
converted. -/
theorem C3_mp3_code_zero_not_excluded :
    files_to_convert_filter [c3mp3rec] 12 1 4 = [c3mp3rec]
    ∧ files_to_convert_filter
        [{ c3mp3rec with FileType := 1 }, { c3mp3rec with FileType := 4 },
          { c3mp3rec with FileType := 12 }] 12 1 4 = []
    ∧ (convert_command c3env yesAiffOpts).state.converted_files =
        [{ source_path := "/m/old.mp3", output_path := "/m/old.aiff"
           content_id := 7 }]
    ∧ (convert_command c3env yesAiffOpts).exit = .finished 0 := by
  refine ⟨by decide, by decide, by decide, by decide⟩

/-- C10: with two filters and match_all not requested the executed
statement combines the conditions with AND, because _copy stores the bound
method match_any (truthy) in the _match_all attribute; the builders do
return fresh instances that extend the condition list of the original. -/
theorem C10_match_any_combines_with_and :
    (collectionQueryInit false).matchAll = .pybool false
    ∧ ((collectionQueryInit false).by_title (some "a") false).matchAll =
        .boundMethod
    ∧ PyMatchAll.truthy .boundMethod = true
    ∧ (get_filtered_content [] [] [] [] [] ["b"] [] [] [] ["a"] []
        false).whereClause =
        some (.andOp, [.artistLike "b", .titleLike "a"])
    ∧ (∀ (q : CollectionQuery) (t : String) (e : Bool),
        (q.by_title (some t) e).conditions =
          q.conditions ++
            [if t = "" then .titleIsNull
             else if e then .titleEq t else .titleLike t]) := by
  refine ⟨rfl, rfl, rfl, by decide, ?_⟩
  intro q t e
  rfl

/-- Probe stream with the exotic bit depth 20, exercising the codec
fallback. -/
def c5stream20 : AudioStreamData :=
  { bits_per_sample := some 20, bits_per_raw_sample := none
    sample_fmt := none, bit_rate := some 1000000
    sample_rate := some 44100, channels := some 2 }

/-- C5 counterexample: on a 20-bit source the aiff conversion falls back to
the 16-bit codec, but the only notice is a single debug-level log record,
which the operator console (INFO threshold) does not show, so the claim
that the fallback is surfaced to the operator as an informational message
is false. -/
theorem C5_fallback_not_surfaced :
    convert_to_lossless true (some c5stream20) true "/m/x.flac" "/m/x.aiff"
        "aiff" =
      .ok { success := true, acodec := "pcm_s16be"
            events := [⟨.debug, .convertingCodec 20 "pcm_s16be"⟩] }
    ∧ ([(⟨.debug, .convertingCodec 20 "pcm_s16be"⟩ : LogEvent)].all
        (fun e => !(operatorVisible e.level))) = true :=
  ⟨rfl, rfl⟩

/-- Lookup misses every key of a three-entry pcm codec table when the depth
is none of 16, 24 and 32. -/
theorem assocLookup_pcm_none (bd : Int) (a b c : String)
    (h16 : bd ≠ 16) (h24 : bd ≠ 24) (h32 : bd ≠ 32) :
    assocLookup [(16, a), (24, b), (32, c)] bd = none := by
  simp only [assocLookup, List.find?]
  have e16 : ((16 : Int) = bd) = False := by
    simp [eq_comm]
    exact h16
  have e24 : ((24 : Int) = bd) = False := by
    simp [eq_comm]
    exact h24
  have e32 : ((32 : Int) = bd) = False := by
    simp [eq_comm]
    exact h32
  simp [e16, e24, e32]

/-- C5 amended: for the raw-PCM containers the selected codec encodes
exactly the source bit depth for 16, 24 and 32; any other source depth
falls back to the codec of the lowest defined bit depth instead of
failing; the only notice emitted on a successful encode is a single
debug-level log record naming the source depth and the chosen codec, which
the operator console does not display at its default level — there is no
operator-visible informational message. -/
theorem C5_lossless_codec_selection (s : AudioStreamData) (ip op : String)
    (info : AudioInfo) (hp : get_audio_info true (some s) ip = .ok info) :
    (∀ outcome,
      convert_to_lossless true (some s) true ip op "aiff" = .ok outcome →
        outcome.events =
          [⟨.debug, .convertingCodec info.bit_depth outcome.acodec⟩]
        ∧ (∀ e, e ∈ outcome.events → operatorVisible e.level = false)
        ∧ (info.bit_depth = 16 → outcome.acodec = "pcm_s16be")
        ∧ (info.bit_depth = 24 → outcome.acodec = "pcm_s24be")
        ∧ (info.bit_depth = 32 → outcome.acodec = "pcm_s32be")
        ∧ (info.bit_depth ≠ 16 → info.bit_depth ≠ 24 → info.bit_depth ≠ 32 →
            outcome.acodec = "pcm_s16be"))
    ∧ (∀ outcome,
      convert_to_lossless true (some s) true ip op "wav" = .ok outcome →
        outcome.events =
          [⟨.debug, .convertingCodec info.bit_depth outcome.acodec⟩]
        ∧ (∀ e, e ∈ outcome.events → operatorVisible e.level = false)
        ∧ (info.bit_depth = 16 → outcome.acodec = "pcm_s16le")
        ∧ (info.bit_depth = 24 → outcome.acodec = "pcm_s24le")
        ∧ (info.bit_depth = 32 → outcome.acodec = "pcm_s32le")
        ∧ (info.bit_depth ≠ 16 → info.bit_depth ≠ 24 → info.bit_depth ≠ 32 →
            outcome.acodec = "pcm_s16le")) := by
  have key : ∀ fmt m, codec_maps fmt = some (some m) →
      convert_to_lossless true (some s) true ip op fmt =
        .ok { success := true
              acodec := (assocLookup m info.bit_depth).getD
                ((m.map Prod.snd).headD "")
              events := [⟨.debug, .convertingCodec info.bit_depth
                ((assocLookup m info.bit_depth).getD
                  ((m.map Prod.snd).headD ""))⟩] } := by
    intro fmt m hm
    unfold convert_to_lossless
    rw [hp, hm]
    rfl
  constructor
  · intro outcome hout
    rw [key "aiff" [(16, "pcm_s16be"), (24, "pcm_s24be"), (32, "pcm_s32be")]
      rfl] at hout
    have h := (Except.ok.injEq _ _).mp hout.symm
    subst h
    refine ⟨rfl, ?_, ?_, ?_, ?_, ?_⟩
    · intro e he
      simp only [List.mem_singleton] at he
      subst he
      rfl
    · intro h16
      simp [h16, assocLookup]
    · intro h24
      simp [h24, assocLookup]
    · intro h32
      simp [h32, assocLookup]
    · intro h16 h24 h32
      simp [assocLookup_pcm_none info.bit_depth _ _ _ h16 h24 h32]
  · intro outcome hout
    rw [key "wav" [(16, "pcm_s16le"), (24, "pcm_s24le"), (32, "pcm_s32le")]
      rfl] at hout
    have h := (Except.ok.injEq _ _).mp hout.symm
    subst h
    refine ⟨rfl, ?_, ?_, ?_, ?_, ?_⟩
    · intro e he
      simp only [List.mem_singleton] at he
      subst he
      rfl
    · intro h16
      simp [h16, assocLookup]
    · intro h24
      simp [h24, assocLookup]
    · intro h32
      simp [h32, assocLookup]
    · intro h16 h24 h32
      simp [assocLookup_pcm_none info.bit_depth _ _ _ h16 h24 h32]

/-- C5 witness: the amended theorem applied to the concrete 20-bit stream:
the fallback selects pcm_s16be and emits only the debug record. -/
theorem C5_lossless_codec_selection_witness :
    ∃ outcome,
      convert_to_lossless true (some c5stream20) true "/m/x.flac" "/m/x.aiff"
          "aiff" = .ok outcome
      ∧ outcome.acodec = "pcm_s16be"
      ∧ outcome.events =
          [⟨.debug, .convertingCodec 20 outcome.acodec⟩] := by
  have h := (C5_lossless_codec_selection c5stream20 "/m/x.flac" "/m/x.aiff"
    { bit_depth := 20, sample_rate := 44100, channels := 2, bitrate := 1000 }
    rfl).1
  refine ⟨{ success := true, acodec := "pcm_s16be"
            events := [⟨.debug, .convertingCodec 20 "pcm_s16be"⟩] }, rfl, ?_, ?_⟩
  · have := h { success := true, acodec := "pcm_s16be"
                events := [⟨.debug, .convertingCodec 20 "pcm_s16be"⟩] } rfl
    exact this.2.2.2.2.2 (by decide) (by decide) (by decide)
  · rfl

/-- Probe stream reporting a 24-bit output. -/
def stream24 : AudioStreamData :=
  { bits_per_sample := some 24, bits_per_raw_sample := none
    sample_fmt := none, bit_rate := some 1200000
    sample_rate := some 44100, channels := some 2 }

/-- Catalog record with a recorded bit depth of 16. -/
def c4rec : DjmdContent :=
  { ID := 3, FileNameL := "s.flac", FolderPath := "/m/s.flac", FileType := 5
    SampleRate := 44100, BitDepth := some 16, BitRate := 850
    Title := "t", ArtistName := "a", AlbumName := "b" }

/-- C4 counterexample: with an MP3 output format the staging function never
compares the probed output bit depth against the record's bit depth: the
record exposes 16, the probed output reports 24, and the update succeeds
anyway, so the claim that the comparison happens for every converted
candidate with a truthy recorded bit depth is false. -/
theorem C4_mp3_target_skips_guard :
    c4rec.BitDepth = some 16
    ∧ get_audio_info true (some stream24) "/m/s.mp3" =
        .ok { bit_depth := 24, sample_rate := 44100, channels := 2
              bitrate := 1200 }
    ∧ update_database_record true [c4rec] (some stream24) 3 "s.mp3" "/m"
        "MP3" =
      .ok [{ c4rec with
              FileNameL := "s.mp3"
              FolderPath := "/m/s.mp3"
              FileType := 1
              BitRate := 1200 }] :=
  ⟨rfl, rfl, rfl⟩

/-- Oracle of the bit-depth-mismatch scenario: the source probes 16-bit,
the encoded output probes 24-bit while the catalog records 16. -/
def c4env : Env :=
  { ffmpegInPath := true, rekordboxPid := none, sessionOk := true
    fs0 := ["/m/s.flac"], db0 := [c4rec], filtered_content := [c4rec]
    probe := fun p => if p = "/m/s.aiff" then some stream24 else some stream16
    encodeOk := fun _ => true, encodeWrites := fun _ => true
    commitOk := true, removeFails := fun _ => false
    continueAnyway := .ret true, batchAnswer := .ret true
    interactiveAnswer := fun _ => .ret true }

/-- C4 amended: for the lossless output formats AIFF, FLAC and WAV the
probed output bit depth is compared against the record's bit depth whenever
the record exposes a truthy value, a mismatch failing with an error naming
the expected and actual depths; a missing recorded bit depth skips the
comparison and the staging succeeds; and a mismatching batch aborts with
one rollback, no commit and a nonzero exit (concrete 16-versus-24 run).
For the MP3 output format the comparison is skipped (see the
counterexample). -/
theorem C4_bit_depth_guard (db : List DjmdContent)
    (probeOut : Option AudioStreamData) (cid : Nat) (fn fold fmt : String)
    (rec : DjmdContent) (info : AudioInfo) (v : Int)
    (hfmt : strUpper fmt = "AIFF" ∨ strUpper fmt = "FLAC" ∨ strUpper fmt = "WAV")
    (hfind : db.find? (fun c => c.ID = cid) = some rec)
    (hprobe : get_audio_info true probeOut (joinPath fold fn) = .ok info) :
    (rec.BitDepth = some v → v ≠ 0 → info.bit_depth ≠ v →
      update_database_record true db probeOut cid fn fold fmt =
        .error s!"Bit depth mismatch: database={v}, file={info.bit_depth}")
    ∧ (rec.BitDepth = none →
        ∃ db2, update_database_record true db probeOut cid fn fold fmt =
          .ok db2)
    ∧ (convert_command c4env yesAiffOpts).exit = .finished 1
    ∧ (convert_command c4env yesAiffOpts).state.rollbackCalls = 1
    ∧ (convert_command c4env yesAiffOpts).state.commitCalls = 0 := by
  have hne : fmt ≠ "" := by
    intro h0
    subst h0
    rcases hfmt with h | h | h <;> exact absurd h (by decide)
  have hft : ∃ ft, get_file_type_for_format fmt = .ok ft := by
    rcases hfmt with h | h | h
    · exact ⟨12, by simp [get_file_type_for_format, hne, h]⟩
    · exact ⟨5, by simp [get_file_type_for_format, hne, h]⟩
    · exact ⟨11, by simp [get_file_type_for_format, hne, h]⟩
  obtain ⟨ft, hftv⟩ := hft
  refine ⟨?_, ?_, by decide, by decide, by decide⟩
  · intro hbd hv hmis
    simp only [update_database_record, hfind, hprobe, hftv, hbd, hfmt,
      bitDepthTruthy, bind, Except.bind]
    simp [hfmt, hv, hmis]
  · intro hbd
    refine ⟨setFirst db cid (fun c =>
      { c with FileNameL := fn, FolderPath := joinPath fold fn
               FileType := ft
               BitRate := if strUpper fmt = "FLAC" then 0
                          else info.bitrate }), ?_⟩
    simp only [update_database_record, hfind, hprobe, hftv, hbd,
      bitDepthTruthy, bind, Except.bind]
    simp [hfmt]
    rfl

/-- C4 witness: the amended theorem applied to the concrete record with
recorded bit depth 16 and an output probed at 24 under the AIFF format. -/
theorem C4_bit_depth_guard_witness :
    update_database_record true [c4rec] (some stream24) 3 "s.aiff" "/m"
      "AIFF" = .error "Bit depth mismatch: database=16, file=24" := by
  have h := (C4_bit_depth_guard [c4rec] (some stream24) 3 "s.aiff" "/m"
    "AIFF" c4rec
    { bit_depth := 24, sample_rate := 44100, channels := 2, bitrate := 1200 }
    16 (Or.inl rfl) rfl rfl).1 rfl (by decide) (by decide)
  exact h

/-- Replacing the first matching record keeps the list length. -/
theorem setFirst_length (db : List DjmdContent) (cid : Nat)
    (f : DjmdContent → DjmdContent) :
    (setFirst db cid f).length = db.length := by
  induction db with
  | nil => rfl
  | cons c rest ih =>
    simp only [setFirst]
    split <;> simp [ih]

/-- Replacing the first matching record keeps the ID column when the update
function does. -/
theorem setFirst_map_ID (db : List DjmdContent) (cid : Nat)
    (f : DjmdContent → DjmdContent) (h : ∀ c, (f c).ID = c.ID) :
    (setFirst db cid f).map (fun c => c.ID) = db.map (fun c => c.ID) := by
  induction db with
  | nil => rfl
  | cons c rest ih =>
    simp only [setFirst]
    split <;> simp [ih, h]

/-- Members of the replaced list are originals or the image of one
original. -/
theorem setFirst_mem (db : List DjmdContent) (cid : Nat)
    (f : DjmdContent → DjmdContent) (c' : DjmdContent)
    (h : c' ∈ setFirst db cid f) : c' ∈ db ∨ ∃ c, c ∈ db ∧ c' = f c := by
  induction db with
  | nil => exact absurd h (by simp [setFirst])
  | cons c rest ih =>
    simp only [setFirst] at h
    split at h
    · rcases List.mem_cons.mp h with h1 | h1
      · exact Or.inr ⟨c, List.mem_cons_self c rest, h1⟩
      · exact Or.inl (List.mem_cons_of_mem c h1)
    · rcases List.mem_cons.mp h with h1 | h1
      · exact Or.inl (h1 ▸ List.mem_cons_self c rest)
      · rcases ih h1 with h2 | ⟨c0, hc0, he⟩
        · exact Or.inl (List.mem_cons_of_mem c h2)
        · exact Or.inr ⟨c0, List.mem_cons_of_mem c hc0, he⟩

/-- C7: a successful staging rewrites exactly the file name, folder path,
file type and bit rate of the first record carrying the target ID — the
bit rate being zero for FLAC and the probed output bit rate otherwise —
and every other field and every other record is unchanged; no record is
created or deleted (length and ID column preserved). -/
theorem C7_staged_mutation_frame (db : List DjmdContent)
    (probeOut : Option AudioStreamData) (cid : Nat) (fn fold fmt : String)
    (db' : List DjmdContent) (info : AudioInfo) (ft : Int)
    (hprobe : get_audio_info true probeOut (joinPath fold fn) = .ok info)
    (hft : get_file_type_for_format fmt = .ok ft)
    (hupd : update_database_record true db probeOut cid fn fold fmt =
      .ok db') :
    db' = setFirst db cid (fun c =>
      { c with FileNameL := fn
               FolderPath := joinPath fold fn
               FileType := ft
               BitRate := if strUpper fmt = "FLAC" then 0 else info.bitrate })
    ∧ db'.length = db.length
    ∧ db'.map (fun c => c.ID) = db.map (fun c => c.ID)
    ∧ ∀ c', c' ∈ db' → ∃ c, c ∈ db ∧ c'.ID = c.ID ∧ c'.Title = c.Title
        ∧ c'.ArtistName = c.ArtistName ∧ c'.AlbumName = c.AlbumName
        ∧ c'.SampleRate = c.SampleRate ∧ c'.BitDepth = c.BitDepth := by
  have hmain : db' = setFirst db cid (fun c =>
      { c with FileNameL := fn
               FolderPath := joinPath fold fn
               FileType := ft
               BitRate := if strUpper fmt = "FLAC" then 0
                          else info.bitrate }) := by
    cases hfind : db.find? (fun c => c.ID = cid) with
    | none =>
      simp only [update_database_record, hfind] at hupd
      exact absurd hupd (by simp [throw, throwThe, MonadExceptOf.throw])
    | some rec =>
      simp only [update_database_record, hfind, hprobe, hft, bind,
        Except.bind] at hupd
      split at hupd
      · split at hupd
        · split at hupd
          · simp at hupd
          · simp only [pure, Except.pure, Except.ok.injEq] at hupd
            exact hupd.symm
        · simp only [pure, Except.pure, Except.ok.injEq] at hupd
          exact hupd.symm
      · simp only [pure, Except.pure, Except.ok.injEq] at hupd
        exact hupd.symm
  subst hmain
  refine ⟨rfl, setFirst_length db cid _, setFirst_map_ID db cid _ (fun c => rfl), ?_⟩
  intro c' hc'
  rcases setFirst_mem db cid _ c' hc' with h1 | ⟨c, hc, he⟩
  · exact ⟨c', h1, rfl, rfl, rfl, rfl, rfl, rfl⟩
  · subst he
    exact ⟨c, hc, rfl, rfl, rfl, rfl, rfl, rfl⟩

/-- C7 witness: the frame theorem applied to a concrete one-record catalog
staged for AIFF. -/
theorem C7_staged_mutation_frame_witness :
    update_database_record true [c4rec] (some stream16) 3 "s.aiff" "/m"
        "AIFF" =
      .ok [{ c4rec with
              FileNameL := "s.aiff"
              FolderPath := "/m/s.aiff"
              FileType := 12
              BitRate := 850 }]
    ∧ ([{ c4rec with
           FileNameL := "s.aiff"
           FolderPath := "/m/s.aiff"
           FileType := 12
           BitRate := 850 }].map (fun c => c.ID)) =
        [c4rec].map (fun c => c.ID) := by
  have h := C7_staged_mutation_frame [c4rec] (some stream16) 3 "s.aiff" "/m"
    "AIFF"
    [{ c4rec with
        FileNameL := "s.aiff"
        FolderPath := "/m/s.aiff"
        FileType := 12
        BitRate := 850 }]
    { bit_depth := 16, sample_rate := 44100, channels := 2, bitrate := 850 }
    12 rfl rfl rfl
  exact ⟨rfl, h.2.2.1⟩

/-- Predicate deciding whether a candidate's computed output path already
exists on disk. -/
def conflictsWith (fs : List String) (fmt : String) (c : DjmdContent) : Bool :=
  match get_output_path c fmt with
  | .ok r => fs.contains r.1
  | .error _ => false

/-- The conflict partition is the filter by output-path existence, in input
order. -/
theorem conflict_split_eq_filter (fs : List String) (fmt : String)
    (files : List DjmdContent) (cs vs : List DjmdContent)
    (h : conflict_split fs fmt files = .ok (cs, vs)) :
    cs = files.filter (conflictsWith fs fmt)
      ∧ vs = files.filter (fun c => !(conflictsWith fs fmt c)) := by
  induction files generalizing cs vs with
  | nil =>
    simp only [conflict_split, Except.ok.injEq, Prod.mk.injEq] at h
    simp [← h.1, ← h.2]
  | cons c rest ih =>
    simp only [conflict_split, bind, Except.bind] at h
    cases hop : get_output_path c fmt with
    | error e => simp [hop] at h
    | ok r =>
      rw [hop] at h
      cases hsp : conflict_split fs fmt rest with
      | error e => simp [hsp] at h
      | ok p =>
        rw [hsp] at h
        obtain ⟨cs0, vs0⟩ := p
        have hw : conflictsWith fs fmt c = fs.contains r.1 := by
          simp [conflictsWith, hop]
        by_cases hc : fs.contains r.1 = true
        · simp only [hc, if_pos, pure, Except.pure, Except.ok.injEq,
            Prod.mk.injEq] at h
          obtain ⟨hcs, hvs⟩ := h
          obtain ⟨ih1, ih2⟩ := ih cs0 vs0 hsp
          subst hcs hvs
          have hmem : r.1 ∈ fs := by simpa using hc
          constructor
          · simp [List.filter_cons, hw, hc, hmem, ih1]
          · simp [List.filter_cons, hw, hc, hmem, ih2]
        · simp only [hc, if_neg, Bool.false_eq_true, not_false_eq_true,
            pure, Except.pure, Except.ok.injEq, Prod.mk.injEq] at h
          obtain ⟨hcs, hvs⟩ := h
          obtain ⟨ih1, ih2⟩ := ih cs0 vs0 hsp
          subst hcs hvs
          have hc2 : conflictsWith fs fmt c = false := by
            rw [hw]
            exact Bool.not_eq_true _ ▸ hc
          constructor
          · simp [List.filter_cons, hc2, ih1]
          · simp [List.filter_cons, hc2, ih2]

/-- C2: the conflict policy table.  Conflicting candidates are exactly
those whose output path exists; with overwrite everything proceeds; with
auto-confirm but no overwrite the conflicting candidates are excluded with
no warning; without auto-confirm they are excluded with a warning naming
the conflict count; with no conflicts everything proceeds. -/
theorem C2_conflict_policy (fs : List String) (fmt : String) (y : Bool)
    (files cs vs : List DjmdContent)
    (h : conflict_split fs fmt files = .ok (cs, vs)) :
    cs = files.filter (conflictsWith fs fmt)
    ∧ vs = files.filter (fun c => !(conflictsWith fs fmt c))
    ∧ (resolve_conflicts fs fmt true y files = .ok
        { files_to_process := files
          events := if cs.isEmpty then []
                    else [⟨.info, .conflictsOverwrite cs.length⟩]
          earlyReturn := false })
    ∧ (cs.isEmpty = false → vs.isEmpty = false →
        resolve_conflicts fs fmt false true files = .ok
          { files_to_process := vs, events := [], earlyReturn := false })
    ∧ (cs.isEmpty = false → vs.isEmpty = true →
        resolve_conflicts fs fmt false true files = .ok
          { files_to_process := [], events := [], earlyReturn := true })
    ∧ (cs.isEmpty = false → vs.isEmpty = false →
        resolve_conflicts fs fmt false false files = .ok
          { files_to_process := vs
            events := [⟨.warning, .skipConflicts cs.length⟩]
            earlyReturn := false })
    ∧ (cs.isEmpty = false → vs.isEmpty = true →
        resolve_conflicts fs fmt false false files = .ok
          { files_to_process := []
            events := [⟨.warning, .skipConflicts cs.length⟩,
                       ⟨.info, .noFilesToConvert⟩]
            earlyReturn := true })
    ∧ (cs.isEmpty = true → ∀ ow : Bool,
        resolve_conflicts fs fmt ow y files = .ok
          { files_to_process := files, events := [], earlyReturn := false }) := by
  obtain ⟨hcs, hvs⟩ := conflict_split_eq_filter fs fmt files cs vs h
  refine ⟨hcs, hvs, ?_, ?_, ?_, ?_, ?_, ?_⟩
  · by_cases he : cs.isEmpty = true
    · simp only [resolve_conflicts, bind, Except.bind, h, he]
      simp [he]
      rfl
    · simp only [resolve_conflicts, bind, Except.bind, h]
      simp only [Bool.not_eq_true] at he
      simp [he]
      rfl
  · intro he1 he2
    simp only [resolve_conflicts, bind, Except.bind, h]
    simp [he1, he2]
    rfl
  · intro he1 he2
    simp only [resolve_conflicts, bind, Except.bind, h]
    simp [he1, he2]
    rfl
  · intro he1 he2
    simp only [resolve_conflicts, bind, Except.bind, h]
    simp [he1, he2]
    rfl
  · intro he1 he2
    simp only [resolve_conflicts, bind, Except.bind, h]
    simp [he1, he2]
    rfl
  · intro he ow
    have hvf : vs = files := by
      rw [hvs]
      apply List.filter_eq_self.mpr
      intro a ha
      have : files.filter (conflictsWith fs fmt) = [] :=
        List.isEmpty_iff.mp (hcs ▸ he)
      have hna := List.filter_eq_nil_iff.mp this a ha
      simp [hna]
    simp only [resolve_conflicts, bind, Except.bind, h]
    cases ow <;> simp [he, hvf] <;> rfl

/-- Candidate records of the conflict-policy witness scenario. -/
def c2recA : DjmdContent :=
  { c4rec with ID := 11, FileNameL := "a.flac", FolderPath := "/m/a.flac" }

def c2recB : DjmdContent :=
  { c4rec with ID := 12, FileNameL := "b.flac", FolderPath := "/m/b.flac" }

def c2recC : DjmdContent :=
  { c4rec with ID := 13, FileNameL := "c.flac", FolderPath := "/m/c.flac" }

/-- Disk contents of the conflict-policy witness: the middle candidate's
aiff output already exists. -/
def c2fs : List String :=
  ["/m/a.flac", "/m/b.flac", "/m/c.flac", "/m/b.aiff"]

/-- C2 witness: the policy theorem applied to three candidates of which one
conflicts, in the no-auto-confirm cell: the conflicting candidate is
excluded, the warning names the count 1, the other two proceed. -/
theorem C2_conflict_policy_witness :
    resolve_conflicts c2fs "aiff" false false [c2recA, c2recB, c2recC] =
      .ok { files_to_process := [c2recA, c2recC]
            events := [⟨.warning, .skipConflicts 1⟩]
            earlyReturn := false } := by
  have h := C2_conflict_policy c2fs "aiff" false [c2recA, c2recB, c2recC]
    [c2recB] [c2recA, c2recC] rfl
  exact h.2.2.2.2.2.1 rfl rfl

/-- Cleanup only ever removes paths: its result is contained in its
input. -/
theorem cleanup_subset (env : Env) (files : List ConvertedFile) :
    ∀ (fs : List String) (p : String),
      p ∈ cleanup_converted_files env files fs → p ∈ fs := by
  induction files with
  | nil =>
    intro fs p h
    simpa [cleanup_converted_files] using h
  | cons f rest ih =>
    intro fs p h
    have hstep : cleanup_converted_files env (f :: rest) fs =
        cleanup_converted_files env rest
          (if env.removeFails f.output_path then fs
           else fs.filter (fun q => q ≠ f.output_path)) := rfl
    rw [hstep] at h
    have h2 := ih _ p h
    by_cases hrf : env.removeFails f.output_path
    · simpa [hrf] using h2
    · rw [if_neg hrf] at h2
      exact (List.mem_filter.mp h2).1

/-- Cleanup removes every accumulated output whose removal does not
fail. -/
theorem cleanup_not_mem (env : Env) (files : List ConvertedFile) :
    ∀ (fs : List String) (f : ConvertedFile), f ∈ files →
      env.removeFails f.output_path = false →
      f.output_path ∉ cleanup_converted_files env files fs := by
  induction files with
  | nil =>
    intro fs f hf
    exact absurd hf (by simp)
  | cons g rest ih =>
    intro fs f hf hrf hmem
    have hstep : cleanup_converted_files env (g :: rest) fs =
        cleanup_converted_files env rest
          (if env.removeFails g.output_path then fs
           else fs.filter (fun q => q ≠ g.output_path)) := rfl
    rw [hstep] at hmem
    rcases List.mem_cons.mp hf with h1 | h1
    · subst h1
      rw [if_neg (by simp [hrf])] at hmem
      have h2 := cleanup_subset env rest _ _ hmem
      have h3 := (List.mem_filter.mp h2).2
      simp at h3
    · exact ih _ f h1 hrf hmem

/-- Effect of the rollback_and_cleanup closure on an open session: one
rollback, untouched commit counter and converted list, and every recorded
output file removed from disk (when its removal succeeds). -/
theorem rollback_and_cleanup_spec (env : Env) (st : RunState)
    (hsess : env.sessionOk = true) :
    (rollback_and_cleanup env st).rollbackCalls = st.rollbackCalls + 1
    ∧ (rollback_and_cleanup env st).commitCalls = st.commitCalls
    ∧ (rollback_and_cleanup env st).converted_files = st.converted_files
    ∧ ∀ f, f ∈ st.converted_files → env.removeFails f.output_path = false →
        f.output_path ∉ (rollback_and_cleanup env st).fs := by
  have hres : rollback_and_cleanup env st =
      (if st.converted_files.isEmpty
       then { st with rollbackCalls := st.rollbackCalls + 1 }
       else { st with rollbackCalls := st.rollbackCalls + 1
                      fs := cleanup_converted_files env st.converted_files
                        st.fs }) := by
    unfold rollback_and_cleanup
    rw [hsess]
    rw [if_pos rfl]
  rw [hres]
  by_cases he : st.converted_files.isEmpty
  · rw [if_pos he]
    refine ⟨rfl, rfl, rfl, ?_⟩
    intro f hf
    rw [List.isEmpty_iff.mp he] at hf
    exact absurd hf (by simp)
  · rw [if_neg he]
    refine ⟨rfl, rfl, rfl, ?_⟩
    intro f hf hrf
    exact cleanup_not_mem env st.converted_files st.fs f hf hrf

/-- Shape of every abort result: the conclusions of
rollback_and_cleanup_spec transported along a state whose counters and
converted list agree with the reference state. -/
theorem abort_spec (env : Env) (stX st : RunState) (ek : ExitKind)
    (hsess : env.sessionOk = true)
    (hc : stX.commitCalls = st.commitCalls)
    (hr : stX.rollbackCalls = st.rollbackCalls)
    (hcv : stX.converted_files = st.converted_files)
    (hnz : ek.isNonzero = true) :
    (RunResult.mk (rollback_and_cleanup env stX) ek).state.commitCalls =
        st.commitCalls
    ∧ (RunResult.mk (rollback_and_cleanup env stX) ek).state.rollbackCalls =
        st.rollbackCalls + 1
    ∧ (RunResult.mk (rollback_and_cleanup env stX) ek).state.converted_files =
        st.converted_files
    ∧ (RunResult.mk (rollback_and_cleanup env stX) ek).exit.isNonzero = true
    ∧ ∀ f, f ∈ st.converted_files → env.removeFails f.output_path = false →
        f.output_path ∉ (RunResult.mk (rollback_and_cleanup env stX) ek).state.fs := by
  have hs := rollback_and_cleanup_spec env stX hsess
  refine ⟨hs.2.1.trans hc, by rw [hs.1, hr], hs.2.2.1.trans hcv, hnz, ?_⟩
  intro f hf hrf
  exact hs.2.2.2 f (hcv ▸ hf) hrf

/-- The staging tail preserves the commit and rollback counters when it
continues. -/
theorem afterEncode_next (env : Env) (opts : Opts) (content : DjmdContent)
    (op ofn sd : String) (outcome : EncodeOutcome) (st st' : RunState)
    (h : afterEncode env opts content op ofn sd outcome st = .next st') :
    st'.commitCalls = st.commitCalls
      ∧ st'.rollbackCalls = st.rollbackCalls := by
  unfold afterEncode at h
  split at h
  · exact absurd h (by simp [abortExit1])
  · split at h
    · exact absurd h (by simp [abortExit1])
    · split at h
      · cases h
        exact ⟨rfl, rfl⟩
      · exact absurd h (by simp [abortExit1])

/-- The staging tail, when it stops the run on an open session, performs
one rollback, no commit, keeps the converted list, exits nonzero and
deletes every converted output whose removal succeeds. -/
theorem afterEncode_stop (env : Env) (opts : Opts) (content : DjmdContent)
    (op ofn sd : String) (outcome : EncodeOutcome) (st : RunState)
    (r : RunResult) (hsess : env.sessionOk = true)
    (h : afterEncode env opts content op ofn sd outcome st = .stop r) :
    r.state.commitCalls = st.commitCalls
    ∧ r.state.rollbackCalls = st.rollbackCalls + 1
    ∧ r.state.converted_files = st.converted_files
    ∧ r.exit.isNonzero = true
    ∧ ∀ f, f ∈ st.converted_files → env.removeFails f.output_path = false →
        f.output_path ∉ r.state.fs := by
  unfold afterEncode at h
  split at h
  · unfold abortExit1 at h
    cases h
    exact abort_spec env _ st _ hsess rfl rfl rfl rfl
  · split at h
    · unfold abortExit1 at h
      cases h
      exact abort_spec env _ st _ hsess rfl rfl rfl rfl
    · split at h
      · exact absurd h (by simp)
      · unfold abortExit1 at h
        cases h
        exact abort_spec env _ st _ hsess rfl rfl rfl rfl

/-- A loop-body iteration that continues preserves the commit and rollback
counters. -/
theorem processBody_next (env : Env) (opts : Opts) (content : DjmdContent)
    (op ofn sd : String) (st st' : RunState)
    (h : processBody env opts content op ofn sd st = .next st') :
    st'.commitCalls = st.commitCalls
      ∧ st'.rollbackCalls = st.rollbackCalls := by
  unfold processBody at h
  split at h
  · exact absurd h (by simp [abortExit1])
  · split at h
    · cases h
      exact ⟨rfl, rfl⟩
    · split at h
      · exact absurd h (by simp [abortRaised])
      · have hr := afterEncode_next env opts content op ofn sd _ _ st' h
        exact hr

/-- A loop-body iteration that stops the run on an open session has
performed exactly one rollback, no commit, kept the converted list, exits
nonzero and has deleted every converted output whose removal succeeds. -/
theorem processBody_stop (env : Env) (opts : Opts) (content : DjmdContent)
    (op ofn sd : String) (st : RunState) (r : RunResult)
    (hsess : env.sessionOk = true)
    (h : processBody env opts content op ofn sd st = .stop r) :
    r.state.commitCalls = st.commitCalls
    ∧ r.state.rollbackCalls = st.rollbackCalls + 1
    ∧ r.state.converted_files = st.converted_files
    ∧ r.exit.isNonzero = true
    ∧ ∀ f, f ∈ st.converted_files → env.removeFails f.output_path = false →
        f.output_path ∉ r.state.fs := by
  unfold processBody at h
  split at h
  · unfold abortExit1 at h
    cases h
    exact abort_spec env _ st _ hsess rfl rfl rfl rfl
  · split at h
    · exact absurd h (by simp)
    · split at h
      · unfold abortRaised at h
        cases h
        exact abort_spec env st st _ hsess rfl rfl rfl rfl
      · have hr := afterEncode_stop env opts content op ofn sd _ _ r hsess h
        exact hr

/-- A full loop iteration that continues (with per-file confirmation off)
preserves the commit and rollback counters. -/
theorem processOne_next (env : Env) (opts : Opts) (i total : Nat)
    (content : DjmdContent) (st st' : RunState)
    (hint : opts.interactive = false)
    (h : processOne env opts i total content st = .next st') :
    st'.commitCalls = st.commitCalls
      ∧ st'.rollbackCalls = st.rollbackCalls := by
  unfold processOne at h
  split at h
  · exact absurd h (by simp [abortRaised])
  · split at h
    · exact absurd h (by simp [abortRaised])
    · rw [hint] at h
      simp only [Bool.false_eq_true, if_false] at h
      have hr := processBody_next env opts content _ _ _ _ st' h
      exact hr

/-- A full loop iteration that stops (with per-file confirmation off, on an
open session) has performed exactly one rollback, no commit, kept the
converted list, exits nonzero, and has deleted every converted output
whose removal succeeds. -/
theorem processOne_stop (env : Env) (opts : Opts) (i total : Nat)
    (content : DjmdContent) (st : RunState) (r : RunResult)
    (hint : opts.interactive = false) (hsess : env.sessionOk = true)
    (h : processOne env opts i total content st = .stop r) :
    r.state.commitCalls = st.commitCalls
    ∧ r.state.rollbackCalls = st.rollbackCalls + 1
    ∧ r.state.converted_files = st.converted_files
    ∧ r.exit.isNonzero = true
    ∧ ∀ f, f ∈ st.converted_files → env.removeFails f.output_path = false →
        f.output_path ∉ r.state.fs := by
  unfold processOne at h
  split at h
  · unfold abortRaised at h
    cases h
    exact abort_spec env st st _ hsess rfl rfl rfl rfl
  · split at h
    · unfold abortRaised at h
      cases h
      exact abort_spec env st st _ hsess rfl rfl rfl rfl
    · rw [hint] at h
      simp only [Bool.false_eq_true, if_false] at h
      have hr := processBody_stop env opts content _ _ _ _ r hsess h
      exact hr

/-- C1 amended: whenever the CONVERT loop stops a batch — in particular on
an encode failure at any candidate k — the catalog commit counter stays
zero, the rollback runs exactly once, every output file recorded for the
fully processed candidates (those preceding k) is deleted when its removal
succeeds, and the process exit is nonzero; an output partially written by
the failing encode call itself is not recorded and is not deleted (see the
counterexample). -/
theorem C1_loop_abort_atomicity (env : Env) (opts : Opts) (total : Nat)
    (hint : opts.interactive = false) (hsess : env.sessionOk = true) :
    ∀ (cands : List DjmdContent) (i : Nat) (st : RunState) (r : RunResult),
      st.commitCalls = 0 → st.rollbackCalls = 0 →
      runLoop env opts total i cands st = .inr r →
      r.state.commitCalls = 0 ∧ r.state.rollbackCalls = 1
      ∧ r.exit.isNonzero = true
      ∧ ∀ f, f ∈ r.state.converted_files →
          env.removeFails f.output_path = false →
          f.output_path ∉ r.state.fs := by
  intro cands
  induction cands with
  | nil =>
    intro i st r h1 h2 h
    exact absurd h (by simp [runLoop])
  | cons c rest ih =>
    intro i st r h1 h2 h
    unfold runLoop at h
    cases hp : processOne env opts i total c st with
    | next st2 =>
      rw [hp] at h
      have hn := processOne_next env opts i total c st st2 hint hp
      exact ih (i + 1) st2 r (hn.1.trans h1) (hn.2.trans h2) h
    | stop r2 =>
      rw [hp] at h
      injection h with hEq
      subst hEq
      have hs := processOne_stop env opts i total c st r2 hint hsess hp
      refine ⟨hs.1.trans h1, by rw [hs.2.1, h2], hs.2.2.2.1, ?_⟩
      intro f hf hrf
      rw [hs.2.2.1] at hf
      exact hs.2.2.2.2 f hf hrf

/-- First candidate of the encode-failure scenario. -/
def c1recA : DjmdContent :=
  { c4rec with ID := 1, FileNameL := "a.flac", FolderPath := "/m/a.flac" }

/-- Second candidate of the encode-failure scenario; its encode fails. -/
def c1recB : DjmdContent :=
  { c4rec with ID := 2, FileNameL := "b.flac", FolderPath := "/m/b.flac" }

/-- Oracle of the encode-failure scenario: the first candidate converts
cleanly, the encoder fails on the second candidate's output while still
writing a partial file there. -/
def c1env : Env :=
  { ffmpegInPath := true, rekordboxPid := none, sessionOk := true
    fs0 := ["/m/a.flac", "/m/b.flac"], db0 := [c1recA, c1recB]
    filtered_content := [c1recA, c1recB]
    probe := fun _ => some stream16
    encodeOk := fun p => p ≠ "/m/b.aiff", encodeWrites := fun _ => true
    commitOk := true, removeFails := fun _ => false
    continueAnyway := .ret true, batchAnswer := .ret true
    interactiveAnswer := fun _ => .ret true }

/-- C1 counterexample: in a two-candidate batch whose second candidate
fails at the encode step, the run exits 1 with no commit and one rollback
and deletes the first candidate's output, but the partial output the
failing encode call wrote is NOT deleted — it is still on disk — so the
claim that every output written during the invocation, including the
failing call's, is deleted is false. -/
theorem C1_counterexample :
    (convert_command c1env yesAiffOpts).exit = .finished 1
    ∧ (convert_command c1env yesAiffOpts).state.commitCalls = 0
    ∧ (convert_command c1env yesAiffOpts).state.rollbackCalls = 1
    ∧ (convert_command c1env yesAiffOpts).state.converted_files =
        [{ source_path := "/m/a.flac", output_path := "/m/a.aiff"
           content_id := 1 }]
    ∧ "/m/a.aiff" ∉ (convert_command c1env yesAiffOpts).state.fs
    ∧ "/m/b.aiff" ∈ (convert_command c1env yesAiffOpts).state.fs
    ∧ c1env.encodeOk "/m/b.aiff" = false
    ∧ c1env.encodeWrites "/m/b.aiff" = true := by
  refine ⟨by decide, by decide, by decide, by decide, by decide, by decide,
    by decide, by decide⟩

/-- The loop result of the encode-failure scenario, unwrapped. -/
def c1LoopResult : RunResult :=
  match runLoop c1env yesAiffOpts 2 1 [c1recA, c1recB] (initState c1env) with
  | .inl st => { state := st, exit := .finished 0 }
  | .inr r => r

/-- C1 witness: the atomicity theorem applied to the concrete two-candidate
batch whose second encode fails. -/
theorem C1_loop_abort_atomicity_witness :
    c1LoopResult.state.commitCalls = 0
    ∧ c1LoopResult.state.rollbackCalls = 1
    ∧ c1LoopResult.exit.isNonzero = true := by
  have hrun : runLoop c1env yesAiffOpts 2 1 [c1recA, c1recB]
      (initState c1env) = .inr c1LoopResult := by decide
  have h := C1_loop_abort_atomicity c1env yesAiffOpts 2 rfl rfl
    [c1recA, c1recB] 1 (initState c1env) c1LoopResult rfl rfl hrun
  exact ⟨h.1, h.2.1, h.2.2.1⟩

/-- Candidate record of the deletion-policy scenarios. -/
def c8rec : DjmdContent := { c4rec with ID := 9 }

/-- Benign oracle for the deletion-policy scenarios. -/
def c8env : Env :=
  { ffmpegInPath := true, rekordboxPid := none, sessionOk := true
    fs0 := ["/m/s.flac"], db0 := [c8rec], filtered_content := [c8rec]
    probe := fun _ => some stream16
    encodeOk := fun _ => true, encodeWrites := fun _ => true
    commitOk := true, removeFails := fun _ => false
    continueAnyway := .ret true, batchAnswer := .ret true
    interactiveAnswer := fun _ => .ret true }

/-- Same oracle with every file removal failing. -/
def c8envRF : Env := { c8env with removeFails := fun _ => true }

/-- Unattended options with a chosen output format and delete flag. -/
def optsFor (fmt : String) (del : Option Bool) : Opts :=
  { dry_run := false, yes := true, delete := del, overwrite := false
    interactive := false, format_out := fmt, print_opt := .info }

/-- C8: the deletion default matrix holds as a flag computation (delete for
aiff, flac, wav and alac; keep for mp3; an explicit flag overrides in both
directions), and post-commit source removal follows it for aiff and mp3
runs, with a removal failure logged and non-fatal — but an alac invocation
crashes in get_file_type_for_format (whose table lacks ALAC) before
converting anything, so no alac conversion or source deletion can ever
happen, contradicting the claim for that format. -/
theorem C8_delete_matrix_and_alac_failure :
    (should_delete_for none "aiff" = true
      ∧ should_delete_for none "flac" = true
      ∧ should_delete_for none "wav" = true
      ∧ should_delete_for none "alac" = true
      ∧ should_delete_for none "mp3" = false)
    ∧ (∀ (b : Bool) (fmt : String), should_delete_for (some b) fmt = b)
    ∧ get_file_type_for_format "alac" = .error "Unknown format: alac"
    ∧ (convert_command c8env (optsFor "alac" none)).exit =
        .raised "Unknown format: alac"
    ∧ (convert_command c8env (optsFor "alac" none)).state.converted_files = []
    ∧ (convert_command c8env (optsFor "alac" none)).state.removalAttempts = []
    ∧ (convert_command c8env (optsFor "aiff" none)).exit = .finished 0
    ∧ (convert_command c8env (optsFor "aiff" none)).state.removalAttempts =
        ["/m/s.flac"]
    ∧ (convert_command c8env (optsFor "mp3" none)).exit = .finished 0
    ∧ (convert_command c8env (optsFor "mp3" none)).state.removalAttempts = []
    ∧ (convert_command c8env (optsFor "mp3" (some true))).state.removalAttempts
        = ["/m/s.flac"]
    ∧ (convert_command c8env (optsFor "aiff" (some false))).state.removalAttempts
        = []
    ∧ (convert_command c8envRF (optsFor "aiff" none)).exit = .finished 0
    ∧ (convert_command c8envRF (optsFor "aiff" none)).state.events.contains
        ⟨.warning, .failedDelete "/m/s.flac"⟩ = true := by
  refine ⟨⟨rfl, rfl, rfl, rfl, rfl⟩, fun b fmt => rfl, ?_, ?_, ?_, ?_, ?_,
    ?_, ?_, ?_, ?_, ?_, ?_, ?_⟩
  · rfl
  · decide
  · decide
  · decide
  · decide
  · decide
  · decide
  · decide
  · decide
  · decide
  · decide
  · decide

end RBE
